import Mathlib

/-!
Shallow embedding of the orchestration core of the Structured-OCR repository
(src/structured_ocr/llm_ocr/graph.py together with the data model of
src/structured_ocr/llm_ocr/schema.py and the configuration surface of
src/structured_ocr/llm_ocr/configuration.py).

Modelling conventions:
- Python `int` is modelled as `Int`; the float arithmetic of
  `percentage_met = sum / len * 100` is modelled with exact rationals `ℚ`.
  Every reachable value of that expression (numerator 0..5, denominator 5)
  is exactly representable as an IEEE double and the comparisons performed
  on it are far from rounding boundaries, so the rational model and the
  float computation agree on all reachable states.
- The LLM and OCR backends are external collaborators; they are modelled as
  oracle functions supplied to the embedded operations.  The serialized
  `reference_text` sent to the correction backend is passed as the
  structured value itself.
- Fallible attribute accesses (`.model_dump()`/`.model_copy()` on `None`)
  are modelled by `Option`-returning operations.
- The module-level constants `MAX_CORRECTION`, `CRITERIA_PERCENTAGE` and
  `CRITERIA_THRESHOLD` of graph.py are gathered in a `Consts` record so the
  theorems can quantify over the budget; `graphConsts` is the record holding
  exactly the values hard-coded in graph.py.
-/

namespace StructuredOCR

/-- graph.py line 43: `MAX_CORRECTION = 3`. -/
def MAX_CORRECTION : Int := 3

/-- graph.py line 44: `CRITERIA_PERCENTAGE = 99`. -/
def CRITERIA_PERCENTAGE : ℚ := 99

/-- graph.py line 45: `CRITERIA_THRESHOLD = 7`. -/
def CRITERIA_THRESHOLD : Int := 7

/-- The three module-level constants of graph.py, as a record so statements
can quantify over the retry budget and thresholds. -/
structure Consts where
  MAX_CORRECTION : Int
  CRITERIA_PERCENTAGE : ℚ
  CRITERIA_THRESHOLD : Int
deriving DecidableEq, Repr

/-- The constants exactly as hard-coded in graph.py. -/
def graphConsts : Consts :=
  { MAX_CORRECTION := MAX_CORRECTION
    CRITERIA_PERCENTAGE := CRITERIA_PERCENTAGE
    CRITERIA_THRESHOLD := CRITERIA_THRESHOLD }

/-- configuration.py, class `Configuration` (pydantic model of the
configuration surface; field defaults as declared there).  graph.py does not
read this model: it uses the hard-coded constants above. -/
structure Configuration where
  use_ocr : Bool
  max_correction : Int
  criteria_met_perc : Int
  criterion_score_threshold : Int
deriving DecidableEq, Repr

/-- The declared defaults of `Configuration` (configuration.py lines 12-17):
`use_ocr=False, max_correction=3, criteria_met_perc=80,
criterion_score_threshold=7`. -/
def defaultConfiguration : Configuration :=
  { use_ocr := false
    max_correction := 3
    criteria_met_perc := 80
    criterion_score_threshold := 7 }

/-- schema.py, class `Player`.  The float field `kd` is modelled as `ℚ`; the
correction logic only copies it, never computes with it. -/
structure Player where
  name : String
  level : Int
  kills : Int
  deaths : Int
  assists : Int
  kd : ℚ
  score : Int
deriving DecidableEq, Repr

/-- schema.py, class `Match` (`TARGET_SCHEMA = Match`).  `side` is the
literal `"Heroes"`/`"Villains"`, kept as `String`. -/
structure Match where
  side : String
  me : Player
  squad : List Player
  teammates : List Player
  enemies : List Player
deriving DecidableEq, Repr

/-- schema.py, class `Criteria`: four integer scores (0-10) plus the
optional free-text `reasons` field. -/
structure Criteria where
  team_names : Int
  highlighted_player : Int
  player_data_accuracy : Int
  grouping : Int
  reasons : Option String
deriving DecidableEq, Repr

/-- A value of the dict produced by `Criteria.model_dump()`: an `int` entry
or the optional-string `reasons` entry. -/
inductive DumpVal where
  | int (n : Int)
  | str (s : Option String)
deriving DecidableEq, Repr

/-- `Criteria.model_dump()`: the field dict in pydantic declaration order. -/
def Criteria.model_dump (c : Criteria) : List (String × DumpVal) :=
  [("team_names", DumpVal.int c.team_names),
   ("highlighted_player", DumpVal.int c.highlighted_player),
   ("player_data_accuracy", DumpVal.int c.player_data_accuracy),
   ("grouping", DumpVal.int c.grouping),
   ("reasons", DumpVal.str c.reasons)]

/-- The field names declared on the `Criteria` model, in declaration order
(pydantic `model_fields` keys). -/
def Criteria.field_names : List String :=
  ["team_names", "highlighted_player", "player_data_accuracy", "grouping", "reasons"]

/-- graph.py lines 118-119: `is_criterion(key, value)` is
`key != "reasons" and isinstance(value, int)`. -/
def is_criterion (key : String) (value : DumpVal) : Bool :=
  key != "reasons" && (match value with
    | DumpVal.int _ => true
    | DumpVal.str _ => false)

/-- schema.py lines 114-119: `CRITERIA_TO_RELATED_FIELDS`. -/
def CRITERIA_TO_RELATED_FIELDS : List (String × List String) :=
  [("team_names", ["side"]),
   ("highlighted_player", ["me"]),
   ("player_data_accuracy", ["me", "teammates", "enemies"]),
   ("grouping", ["me", "teammates", "enemies"])]

/-- graph.py, class `GraphState`.  The opaque collaborator payloads
(PIL image, raw bytes, Document AI result, preprocess options) are modelled
as `Unit`/`Option Unit` placeholders: the orchestration logic under study
never inspects them, only threads them through. -/
structure GraphState where
  image_path : String
  preprocess : Bool := true
  preprocess_options : Unit := ()
  image : Option Unit := none
  image_bytes : Option Unit := none
  image_base64 : Option String := none
  ocr_text_extraction_result : Option Unit := none
  llm_text_extraction_result : Option Match := none
  criteria : Option Criteria := none
  correction_attemps : Int := 0
deriving DecidableEq, Repr

/-- One entry of graph.py line 196's list comprehension:
`1 if (is_criterion(criterion, score) and score >= CRITERIA_THRESHOLD) else 0`
(the `and` short-circuits, so the threshold comparison only happens on int
entries). -/
def criterionMet (cfg : Consts) (kv : String × DumpVal) : Bool :=
  is_criterion kv.1 kv.2 && (match kv.2 with
    | DumpVal.int n => decide (n ≥ cfg.CRITERIA_THRESHOLD)
    | DumpVal.str _ => false)

/-- graph.py line 196: `valid_scores`, one 0/1 entry per item of
`criteria.model_dump()` — including the `reasons` entry, which always
contributes 0 to the sum but 1 to the length. -/
def valid_scores (cfg : Consts) (c : Criteria) : List Nat :=
  c.model_dump.map (fun kv => if criterionMet cfg kv then 1 else 0)

/-- graph.py line 198:
`percentage_met = sum(valid_scores) / len(valid_scores) * 100`. -/
def percentage_met (cfg : Consts) (c : Criteria) : ℚ :=
  ((valid_scores cfg c).sum : ℚ) / ((valid_scores cfg c).length : ℚ) * 100

/-- graph.py lines 188-203, `should_continue`: the Convergence Policy.
Returns `none` for the `AttributeError` raised when `state.criteria` is
`None` and the budget is not yet exhausted. -/
def should_continue (cfg : Consts) (state : GraphState) : Option String :=
  if state.correction_attemps ≥ cfg.MAX_CORRECTION then some "valid"
  else
    match state.criteria with
    | none => none
    | some c =>
        some (if percentage_met cfg c > cfg.CRITERIA_PERCENTAGE then "valid" else "invalid")

/-- graph.py line 138: `list(dict.fromkeys(fields_to_correct))` — remove
duplicates preserving first-occurrence order. -/
def dedupFirst (xs : List String) : List String :=
  xs.foldl (fun acc x => if acc.contains x then acc else acc ++ [x]) []

/-- graph.py lines 131-138: the `fields_to_correct` computation of
`corrector`.  An absent criteria record (`if state.criteria:` falsy) leaves
the list empty.  For each dict entry that is a genuine criterion, scores
strictly below the threshold contribute the mapped fields, in dict order,
and only when the criterion has an entry in `CRITERIA_TO_RELATED_FIELDS`. -/
def fields_to_correct (cfg : Consts) (criteria : Option Criteria) : List String :=
  match criteria with
  | none => []
  | some c =>
      let raw := c.model_dump.foldl (fun acc kv =>
        match kv.2 with
        | DumpVal.int score =>
            if is_criterion kv.1 (DumpVal.int score) && score < cfg.CRITERIA_THRESHOLD then
              match CRITERIA_TO_RELATED_FIELDS.lookup kv.1 with
              | some fs => acc ++ fs
              | none => acc
            else acc
        | DumpVal.str _ => acc) []
      dedupFirst raw

/-- The pydantic `Field(description=...)` strings of the `Criteria` model
(schema.py lines 105-108), keyed by field name, as read by
`state.criteria.__class__.model_fields[criterion].description`. -/
def criteriaFieldDescription (criterion : String) : String :=
  if criterion = "team_names" then
    "Verify team names \x27Heroes\x27 and \x27Villains\x27 are correctly identified"
  else if criterion = "highlighted_player" then
    "Confirm the \x27me\x27 player is correctly identified"
  else if criterion = "player_data_accuracy" then
    "Check each player\x27s name, level, kills, assists, deaths, K/D ratio, and score are accurately extracted"
  else if criterion = "grouping" then
    "Ensure teammates and enemies are correctly grouped relative to \x27me\x27"
  else ""

/-- graph.py lines 144-156: the targeted correction instruction string —
one description line per failing criterion plus the scorer reasons line. -/
def correctionInstructions (cfg : Consts) (criteria : Option Criteria) : String :=
  match criteria with
  | none => ""
  | some c =>
      let descs := c.model_dump.foldl (fun acc kv =>
        match kv.2 with
        | DumpVal.int score =>
            if is_criterion kv.1 (DumpVal.int score) && score < cfg.CRITERIA_THRESHOLD then
              acc ++ [criteriaFieldDescription kv.1 ++
                " was found to be inadequate (score: " ++ toString score ++ "/" ++
                toString cfg.CRITERIA_THRESHOLD ++ ")"]
            else acc
        | DumpVal.str _ => acc) []
      String.intercalate "\n"
        [String.intercalate "\n" descs,
         "Reasons for correction: " ++
           (match c.reasons with | some r => r | none => "None")]

/-- graph.py lines 171-173: one `setattr(result, field, getattr(src, field))`
step, guarded by `hasattr(src, field)` — names that are not `Match` fields
are skipped. -/
def setField (m : Match) (field : String) (src : Match) : Match :=
  if field = "side" then { m with side := src.side }
  else if field = "me" then { m with me := src.me }
  else if field = "squad" then { m with squad := src.squad }
  else if field = "teammates" then { m with teammates := src.teammates }
  else if field = "enemies" then { m with enemies := src.enemies }
  else m

/-- graph.py lines 122-185, `corrector`: the Selective Corrector.
`run_llm_corr` is the Extraction Backend oracle, receiving the instruction
string and the current result (whose `model_dump_json` serialization is the
`reference_text` of the real call).  Returns the dict
`{llm_text_extraction_result, correction_attemps}`; `none` models the
`AttributeError` of `model_copy()` on an absent result. -/
def corrector (cfg : Consts) (run_llm_corr : String → Match → Match)
    (state : GraphState) : Option (Option Match × Int) :=
  if state.correction_attemps ≥ cfg.MAX_CORRECTION then
    some (state.llm_text_extraction_result, state.correction_attemps)
  else
    let ftc := fields_to_correct cfg state.criteria
    match state.llm_text_extraction_result with
    | none => none
    | some cur =>
        if ftc ≠ [] then
          let corrected := run_llm_corr (correctionInstructions cfg state.criteria) cur
          let merged := ftc.foldl (fun acc f => setField acc f corrected) cur
          some (some merged, state.correction_attemps + 1)
        else
          some (some cur, cfg.MAX_CORRECTION + 1)

/-- The nodes of the langgraph `StateGraph` built in graph.py lines 206-231,
plus the implicit START/END vertices. -/
inductive Node where
  | START
  | image_preprocessing
  | format_conversion
  | ocr_text_extraction
  | llm_text_extraction
  | criteria_checker
  | corrector
  | END
deriving DecidableEq, BEq, Repr

/-- The unconditional edges added with `builder.add_edge` in graph.py
lines 216-220 and 229. -/
def builder_edges : List (Node × Node) :=
  [(Node.START, Node.image_preprocessing),
   (Node.image_preprocessing, Node.format_conversion),
   (Node.format_conversion, Node.ocr_text_extraction),
   (Node.ocr_text_extraction, Node.llm_text_extraction),
   (Node.llm_text_extraction, Node.criteria_checker),
   (Node.corrector, Node.criteria_checker)]

/-- The conditional-edge dictionary of `builder.add_conditional_edges`
(graph.py lines 221-228): `{"valid": END, "invalid": "corrector"}`; any
other verdict has no route. -/
def conditional_route (verdict : String) : Option Node :=
  if verdict = "valid" then some Node.END
  else if verdict = "invalid" then some Node.corrector
  else none

/-- The successor function of the compiled graph: `criteria_checker` routes
through `should_continue` and the conditional-edge dictionary; every other
node follows its unique `add_edge` entry. -/
def graph_step (cfg : Consts) (state : GraphState) : Node → Option Node
  | Node.criteria_checker =>
      match should_continue cfg state with
      | some verdict => conditional_route verdict
      | none => none
  | n => builder_edges.lookup n

/-- Outcome of running the scoring/correction cycle of the compiled graph:
`done finalState realCorrections` when the conditional edge reaches END,
`stuck` for an exhausted fuel bound or a crashing/unroutable configuration
(absent extraction result, unroutable verdict). -/
inductive LoopResult where
  | done (finalState : GraphState) (realCorrections : Nat)
  | stuck
deriving DecidableEq, Repr

/-- The cycle `criteria_checker → should_continue → {END | corrector} →
criteria_checker` of the compiled graph (graph.py lines 221-229), entered
after `llm_text_extraction` has set the extraction result.  `checker` is the
Criteria Scorer oracle and `corrLLM` the Extraction Backend oracle, indexed
by the call number so successive backend calls may differ arbitrarily.
`fuel` bounds the number of scoring iterations considered; `reals` counts
completed real correction cycles (cycles on which the corrector invoked the
backend and incremented the attempt counter). -/
def scoringLoop (cfg : Consts) (checker : Nat → Match → Criteria)
    (corrLLM : Nat → String → Match → Match) :
    Nat → Nat → GraphState → Nat → LoopResult
  | 0, _, _, _ => LoopResult.stuck
  | fuel + 1, k, s, reals =>
      match s.llm_text_extraction_result with
      | none => LoopResult.stuck
      | some result =>
          let s1 := { s with criteria := some (checker k result) }
          if should_continue cfg s1 = some "valid" then LoopResult.done s1 reals
          else if should_continue cfg s1 = some "invalid" then
            match corrector cfg (corrLLM k) s1 with
            | some (r', a') =>
                scoringLoop cfg checker corrLLM fuel (k + 1)
                  { s1 with llm_text_extraction_result := r', correction_attemps := a' }
                  (if (fields_to_correct cfg s1.criteria).isEmpty then reals else reals + 1)
            | none => LoopResult.stuck
          else LoopResult.stuck

/-- graph.py lines 255-263, `batch_run_graph`: the batch is
`list(tqdm(pool.imap(run_graph, image_paths), ...))`.  `pool.imap` yields
per-item results in input order and re-raises a worker's exception in the
parent when that item's slot is consumed, which aborts the `list(...)`
aggregation; there is no try/except around `run_graph`.  The item runner is
abstracted as an `Except`-returning function (`Except.error` = the item's
pipeline raised after exhausting its retries). -/
def batch_run_graph {ε α : Type} (run_graph_fn : String → Except ε α) :
    List String → Except ε (List α)
  | [] => Except.ok []
  | p :: ps =>
      match run_graph_fn p with
      | Except.error e => Except.error e
      | Except.ok a =>
          match batch_run_graph run_graph_fn ps with
          | Except.error e => Except.error e
          | Except.ok as => Except.ok (a :: as)

/-- Spec-worded count for comparison with the code: the number of scorable
criteria (the four integer fields of `Criteria`, the free-text `reasons`
entry excluded) whose score meets the threshold. -/
def numCriteriaMet (cfg : Consts) (c : Criteria) : Nat :=
  (if c.team_names ≥ cfg.CRITERIA_THRESHOLD then 1 else 0) +
  (if c.highlighted_player ≥ cfg.CRITERIA_THRESHOLD then 1 else 0) +
  (if c.player_data_accuracy ≥ cfg.CRITERIA_THRESHOLD then 1 else 0) +
  (if c.grouping ≥ cfg.CRITERIA_THRESHOLD then 1 else 0)

/-- Whether the loop run reached END. -/
def LoopResult.isDone : LoopResult → Bool
  | LoopResult.done _ _ => true
  | LoopResult.stuck => false

/-- The number of real correction cycles of a finished loop run. -/
def LoopResult.realCorrections : LoopResult → Nat
  | LoopResult.done _ r => r
  | LoopResult.stuck => 0

/-- The final attempt counter of a finished loop run. -/
def LoopResult.finalAttempts : LoopResult → Int
  | LoopResult.done s _ => s.correction_attemps
  | LoopResult.stuck => 0

/-- Criteria scores of §8 "Percentage computation": `{a:10, b:10, c:0, d:0}`
laid onto the four scorable fields. -/
def critC1 : Criteria := ⟨10, 10, 0, 0, none⟩

/-- Criteria scores of §8 "Scenario":
`{team_names:10, highlighted_player:10, player_data_accuracy:8, grouping:9}`. -/
def critC2 : Criteria := ⟨10, 10, 8, 9, none⟩

/-- All four criteria at 10: nothing fails, so no field needs correction. -/
def critAll10 : Criteria := ⟨10, 10, 10, 10, some "ok"⟩

/-- All four criteria at 0. -/
def critZero : Criteria := ⟨0, 0, 0, 0, none⟩

/-- Only `grouping` fails: the implicated fields are me/teammates/enemies. -/
def critG : Criteria := ⟨10, 10, 10, 0, some "bad grouping"⟩

/-- A concrete player. -/
def pA : Player := ⟨"alice", 10, 1, 2, 3, 1/2, 100⟩

/-- Another concrete player. -/
def pB : Player := ⟨"bob", 20, 4, 5, 6, 2, 200⟩

/-- A concrete extraction result. -/
def mEx : Match := ⟨"Heroes", pA, [], [pB], [pB]⟩

/-- A regenerated result that differs from `mEx` in every field. -/
def mNew : Match := ⟨"Villains", pB, [pA], [pA], [pA]⟩

/-- The merge of `mNew` into `mEx` restricted to me/teammates/enemies:
`side` and `squad` keep the values of `mEx`. -/
def mMergedC3 : Match := ⟨"Heroes", pB, [], [pA], [pA]⟩

/-- A correction backend oracle returning the current result unchanged. -/
def idOracle : String → Match → Match := fun _ m => m

/-- A correction backend oracle constantly returning `mNew`. -/
def newOracle : String → Match → Match := fun _ _ => mNew

/-- A Criteria Scorer oracle constantly returning `c`. -/
def constChecker (c : Criteria) : Nat → Match → Criteria := fun _ _ => c

/-- A correction backend oracle stream returning the current result. -/
def idCorrLLM : Nat → String → Match → Match := fun _ _ m => m

/-- State entering the scoring loop right after `llm_text_extraction`. -/
def loopStart : GraphState :=
  { image_path := "img.png", llm_text_extraction_result := some mEx }

/-- State with the §8 scenario scores and attempt counter `a`. -/
def sC2 (a : Int) : GraphState :=
  { image_path := "img.png", llm_text_extraction_result := some mEx,
    criteria := some critC2, correction_attemps := a }

/-- State whose criteria all pass, at attempt 0: the corrector finds no
field to correct. -/
def sAllPass : GraphState :=
  { image_path := "img.png", llm_text_extraction_result := some mEx,
    criteria := some critAll10, correction_attemps := 0 }

/-- State already past the budget (attempt counter 5). -/
def sBudget : GraphState :=
  { image_path := "img.png", llm_text_extraction_result := some mEx,
    criteria := some critAll10, correction_attemps := 5 }

/-- State whose `grouping` criterion fails, at attempt 0. -/
def sGrouping : GraphState :=
  { image_path := "img.png", llm_text_extraction_result := some mEx,
    criteria := some critG, correction_attemps := 0 }

/-- State with all-zero scores and the attempt budget exhausted. -/
def sZeroScores : GraphState :=
  { image_path := "img.png", criteria := some critZero, correction_attemps := 3 }

/-- State at the attempt budget, criteria irrelevant. -/
def sAtBudget : GraphState :=
  { image_path := "img.png", correction_attemps := 3 }

/-- An item runner whose second item fails irrecoverably. -/
def runGraphFail : String → Except String Nat :=
  fun p => if p = "b.png" then Except.error "ItemFailure" else Except.ok 1

/-- An item runner on which every item succeeds. -/
def runAllOk : String → Except String Nat := fun _ => Except.ok 1

/-! ## Helper lemmas (shared across the claim theorems) -/

/-- `valid_scores` evaluated on the five dict entries: the four scorable
criteria contribute their threshold test, the `reasons` entry contributes a
hard 0 — but still occupies a list slot. -/
lemma valid_scores_eval (cfg : Consts) (c : Criteria) :
    valid_scores cfg c =
      [if c.team_names ≥ cfg.CRITERIA_THRESHOLD then 1 else 0,
       if c.highlighted_player ≥ cfg.CRITERIA_THRESHOLD then 1 else 0,
       if c.player_data_accuracy ≥ cfg.CRITERIA_THRESHOLD then 1 else 0,
       if c.grouping ≥ cfg.CRITERIA_THRESHOLD then 1 else 0,
       0] := by
  simp [valid_scores, Criteria.model_dump, criterionMet, is_criterion]

lemma percentage_met_critC1 : percentage_met graphConsts critC1 = 40 := by
  norm_num [percentage_met, valid_scores_eval, critC1, graphConsts, CRITERIA_THRESHOLD]

lemma percentage_met_critC2 : percentage_met graphConsts critC2 = 80 := by
  norm_num [percentage_met, valid_scores_eval, critC2, graphConsts, CRITERIA_THRESHOLD]

/-- `should_continue` below the budget with a criteria record present. -/
lemma should_continue_open (cfg : Consts) (s : GraphState) (c : Criteria)
    (ha : ¬ cfg.MAX_CORRECTION ≤ s.correction_attemps) (hc : s.criteria = some c) :
    should_continue cfg s =
      some (if percentage_met cfg c > cfg.CRITERIA_PERCENTAGE then "valid" else "invalid") := by
  unfold should_continue
  rw [if_neg ha, hc]

lemma should_continue_sC2 (a : Int) (h : a < graphConsts.MAX_CORRECTION) :
    should_continue graphConsts (sC2 a) = some "invalid" := by
  rw [should_continue_open graphConsts (sC2 a) critC2 (not_le.mpr h) rfl,
    if_neg (by rw [percentage_met_critC2]; norm_num [graphConsts, CRITERIA_PERCENTAGE])]

/-! ## Claim theorems -/

/-- C1: the spec claims `percentage_met` divides the count of criteria at or
above the threshold by the number of scorable criteria, reasons excluded
from both numerator and denominator, giving 50% on scores {10,10,0,0} with
threshold 7.  The code divides by `len(valid_scores)`, which counts the
`reasons` entry too (5 slots, not 4): the same scores give 40%. -/
theorem C1_counterexample :
    percentage_met graphConsts critC1 = 40 ∧ ¬ percentage_met graphConsts critC1 = 50 := by
  rw [percentage_met_critC1]
  norm_num

/-- C1 (amended): `percentage_met` is 100 times the count of scorable
criteria meeting the threshold divided by the number of entries of the
dumped criteria record — 5, the free-text `reasons` entry included in the
denominator though it can never enter the numerator; on scores {10,10,0,0}
with threshold 7 this yields 40%, not 50%. -/
theorem C1_amended_percentage :
    (∀ (cfg : Consts) (c : Criteria),
      percentage_met cfg c = (numCriteriaMet cfg c : ℚ) / 5 * 100) ∧
    percentage_met graphConsts critC1 = 40 := by
  constructor
  · intro cfg c
    rw [percentage_met, valid_scores_eval, numCriteriaMet]
    split_ifs <;> push_cast <;> norm_num
  · exact percentage_met_critC1

/-- C2: the spec claims that with threshold 7 and `criteria_met_perc` 80,
scores {10,10,8,9} give 100%, a terminal-valid verdict and zero
corrections.  The code compares against the hard-coded
`CRITERIA_PERCENTAGE = 99` (the `Configuration.criteria_met_perc` default
of 80 is never read by the graph), and the denominator includes the
`reasons` entry, so those scores give 80%, `80 > 99` is false, and the
verdict is `invalid`. -/
theorem C2_counterexample :
    percentage_met graphConsts critC2 = 80 ∧
    ¬ percentage_met graphConsts critC2 = 100 ∧
    should_continue graphConsts (sC2 0) = some "invalid" ∧
    ¬ should_continue graphConsts (sC2 0) = some "valid" ∧
    defaultConfiguration.criteria_met_perc = 80 ∧
    graphConsts.CRITERIA_PERCENTAGE = 99 := by
  refine ⟨percentage_met_critC2, by rw [percentage_met_critC2]; norm_num,
    should_continue_sC2 0 (by norm_num [graphConsts, MAX_CORRECTION]), ?_, rfl, rfl⟩
  rw [should_continue_sC2 0 (by norm_num [graphConsts, MAX_CORRECTION])]
  simp

/-- C5: whenever the Convergence Policy runs with the attempt counter at or
above the budget, it returns `valid` immediately, whatever the criteria
record holds (graph.py lines 190-192) — the percentage computation is not
reached (the verdict is produced even when `criteria` is absent, which
would make the percentage computation raise). -/
theorem C5_budget_exhausted_valid (cfg : Consts) (s : GraphState)
    (h : cfg.MAX_CORRECTION ≤ s.correction_attemps) :
    should_continue cfg s = some "valid" := by
  unfold should_continue
  rw [if_pos h]

/-- C5 witness: all-zero scores, attempt counter 3 = MAX_CORRECTION. -/
theorem C5_witness :
    graphConsts.MAX_CORRECTION ≤ sZeroScores.correction_attemps ∧
    should_continue graphConsts sZeroScores = some "valid" :=
  ⟨by decide, C5_budget_exhausted_valid graphConsts sZeroScores (by decide)⟩

/-- C10: the denominator of the convergence percentage is the length of
`valid_scores`, one entry per field declared on the `Criteria` model — a
fixed 5 ≥ 1 for every criteria record and every configuration, so the
division is never a division by zero. -/
theorem C10_denominator_safe :
    ∀ (cfg : Consts) (c : Criteria),
      (valid_scores cfg c).length = Criteria.field_names.length ∧
      Criteria.field_names.length = 5 ∧
      ((valid_scores cfg c).length : ℚ) ≠ 0 := by
  intro cfg c
  refine ⟨?_, rfl, ?_⟩ <;>
    simp [valid_scores, Criteria.model_dump, Criteria.field_names]

lemma corrector_budget_exhausted (cfg : Consts) (o : String → Match → Match)
    (s : GraphState) (h : cfg.MAX_CORRECTION ≤ s.correction_attemps) :
    corrector cfg o s = some (s.llm_text_extraction_result, s.correction_attemps) := by
  unfold corrector
  rw [if_pos h]

lemma corrector_crash (cfg : Consts) (o : String → Match → Match) (s : GraphState)
    (ha : ¬ cfg.MAX_CORRECTION ≤ s.correction_attemps)
    (hres : s.llm_text_extraction_result = none) :
    corrector cfg o s = none := by
  unfold corrector
  rw [if_neg ha]
  simp [hres]

lemma corrector_short_circuit (cfg : Consts) (o : String → Match → Match)
    (s : GraphState) (cur : Match)
    (ha : ¬ cfg.MAX_CORRECTION ≤ s.correction_attemps)
    (hres : s.llm_text_extraction_result = some cur)
    (hftc : fields_to_correct cfg s.criteria = []) :
    corrector cfg o s = some (some cur, cfg.MAX_CORRECTION + 1) := by
  unfold corrector
  rw [if_neg ha]
  simp [hres, hftc]

lemma corrector_real (cfg : Consts) (o : String → Match → Match)
    (s : GraphState) (cur : Match)
    (ha : ¬ cfg.MAX_CORRECTION ≤ s.correction_attemps)
    (hres : s.llm_text_extraction_result = some cur)
    (hftc : fields_to_correct cfg s.criteria ≠ []) :
    corrector cfg o s =
      some (some ((fields_to_correct cfg s.criteria).foldl
          (fun acc f => setField acc f (o (correctionInstructions cfg s.criteria) cur)) cur),
        s.correction_attemps + 1) := by
  unfold corrector
  rw [if_neg ha]
  simp [hres, hftc]

lemma setField_side_of_ne (m src : Match) (f : String) (h : f ≠ "side") :
    (setField m f src).side = m.side := by
  unfold setField
  split_ifs <;> simp_all

lemma setField_me_of_ne (m src : Match) (f : String) (h : f ≠ "me") :
    (setField m f src).me = m.me := by
  unfold setField
  split_ifs <;> simp_all

lemma setField_squad_of_ne (m src : Match) (f : String) (h : f ≠ "squad") :
    (setField m f src).squad = m.squad := by
  unfold setField
  split_ifs <;> simp_all

lemma setField_teammates_of_ne (m src : Match) (f : String) (h : f ≠ "teammates") :
    (setField m f src).teammates = m.teammates := by
  unfold setField
  split_ifs <;> simp_all

lemma setField_enemies_of_ne (m src : Match) (f : String) (h : f ≠ "enemies") :
    (setField m f src).enemies = m.enemies := by
  unfold setField
  split_ifs <;> simp_all

lemma foldl_setField_side (src : Match) :
    ∀ (fields : List String) (m : Match), "side" ∉ fields →
      (fields.foldl (fun acc f => setField acc f src) m).side = m.side := by
  intro fields
  induction fields with
  | nil => intro m _; rfl
  | cons f fs ih =>
      intro m h
      rw [List.mem_cons] at h
      push_neg at h
      rw [List.foldl_cons, ih _ h.2, setField_side_of_ne _ _ _ (Ne.symm h.1)]

lemma foldl_setField_me (src : Match) :
    ∀ (fields : List String) (m : Match), "me" ∉ fields →
      (fields.foldl (fun acc f => setField acc f src) m).me = m.me := by
  intro fields
  induction fields with
  | nil => intro m _; rfl
  | cons f fs ih =>
      intro m h
      rw [List.mem_cons] at h
      push_neg at h
      rw [List.foldl_cons, ih _ h.2, setField_me_of_ne _ _ _ (Ne.symm h.1)]

lemma foldl_setField_squad (src : Match) :
    ∀ (fields : List String) (m : Match), "squad" ∉ fields →
      (fields.foldl (fun acc f => setField acc f src) m).squad = m.squad := by
  intro fields
  induction fields with
  | nil => intro m _; rfl
  | cons f fs ih =>
      intro m h
      rw [List.mem_cons] at h
      push_neg at h
      rw [List.foldl_cons, ih _ h.2, setField_squad_of_ne _ _ _ (Ne.symm h.1)]

lemma foldl_setField_teammates (src : Match) :
    ∀ (fields : List String) (m : Match), "teammates" ∉ fields →
      (fields.foldl (fun acc f => setField acc f src) m).teammates = m.teammates := by
  intro fields
  induction fields with
  | nil => intro m _; rfl
  | cons f fs ih =>
      intro m h
      rw [List.mem_cons] at h
      push_neg at h
      rw [List.foldl_cons, ih _ h.2, setField_teammates_of_ne _ _ _ (Ne.symm h.1)]

lemma foldl_setField_enemies (src : Match) :
    ∀ (fields : List String) (m : Match), "enemies" ∉ fields →
      (fields.foldl (fun acc f => setField acc f src) m).enemies = m.enemies := by
  intro fields
  induction fields with
  | nil => intro m _; rfl
  | cons f fs ih =>
      intro m h
      rw [List.mem_cons] at h
      push_neg at h
      rw [List.foldl_cons, ih _ h.2, setField_enemies_of_ne _ _ _ (Ne.symm h.1)]

/-- C3: whatever result the corrector returns, every `Match` field whose
name is not in the computed `fields_to_correct` list carries the value it
had before the merge — the merge loop only ever assigns fields from that
list, and the other branches return the previous result unchanged. -/
theorem C3_field_scoping (cfg : Consts) (o : String → Match → Match)
    (s : GraphState) (cur merged : Match) (a' : Int)
    (hres : s.llm_text_extraction_result = some cur)
    (hcorr : corrector cfg o s = some (some merged, a')) :
    ("side" ∉ fields_to_correct cfg s.criteria → merged.side = cur.side) ∧
    ("me" ∉ fields_to_correct cfg s.criteria → merged.me = cur.me) ∧
    ("squad" ∉ fields_to_correct cfg s.criteria → merged.squad = cur.squad) ∧
    ("teammates" ∉ fields_to_correct cfg s.criteria → merged.teammates = cur.teammates) ∧
    ("enemies" ∉ fields_to_correct cfg s.criteria → merged.enemies = cur.enemies) := by
  by_cases hb : cfg.MAX_CORRECTION ≤ s.correction_attemps
  · rw [corrector_budget_exhausted cfg o s hb, hres] at hcorr
    simp only [Option.some.injEq, Prod.mk.injEq] at hcorr
    obtain ⟨rfl, -⟩ := hcorr
    exact ⟨fun _ => rfl, fun _ => rfl, fun _ => rfl, fun _ => rfl, fun _ => rfl⟩
  · by_cases hftc : fields_to_correct cfg s.criteria = []
    · rw [corrector_short_circuit cfg o s cur hb hres hftc] at hcorr
      simp only [Option.some.injEq, Prod.mk.injEq] at hcorr
      obtain ⟨rfl, -⟩ := hcorr
      exact ⟨fun _ => rfl, fun _ => rfl, fun _ => rfl, fun _ => rfl, fun _ => rfl⟩
    · rw [corrector_real cfg o s cur hb hres hftc] at hcorr
      simp only [Option.some.injEq, Prod.mk.injEq] at hcorr
      obtain ⟨rfl, -⟩ := hcorr
      exact ⟨fun h => foldl_setField_side _ _ _ h, fun h => foldl_setField_me _ _ _ h,
        fun h => foldl_setField_squad _ _ _ h, fun h => foldl_setField_teammates _ _ _ h,
        fun h => foldl_setField_enemies _ _ _ h⟩

/-- C3 witness: `grouping` fails, the backend regenerates every field
differently (`mNew`), yet the merged result keeps `side` and `squad` from
the previous result, since only me/teammates/enemies are implicated. -/
theorem C3_field_scoping_witness :
    mMergedC3.side = mEx.side ∧ mMergedC3.squad = mEx.squad := by
  have h := C3_field_scoping graphConsts newOracle sGrouping mEx mMergedC3 1 rfl rfl
  exact ⟨h.1 (by decide), h.2.2.1 (by decide)⟩

/-- C6: when no field needs correction, the corrector returns the previous
result unchanged, its output does not depend on the Extraction Backend
oracle at all (the backend is not consulted), the attempt counter is set to
the sentinel `MAX_CORRECTION + 1 ≥ MAX_CORRECTION`, and the next
Convergence Policy check on the updated counter immediately returns
`valid`. -/
theorem C6_empty_correction_short_circuit (cfg : Consts) (s : GraphState) (cur : Match)
    (hres : s.llm_text_extraction_result = some cur)
    (ha : s.correction_attemps < cfg.MAX_CORRECTION)
    (hftc : fields_to_correct cfg s.criteria = []) :
    (∀ o, corrector cfg o s = some (some cur, cfg.MAX_CORRECTION + 1)) ∧
    (∀ o₁ o₂, corrector cfg o₁ s = corrector cfg o₂ s) ∧
    cfg.MAX_CORRECTION ≤ cfg.MAX_CORRECTION + 1 ∧
    should_continue cfg { s with correction_attemps := cfg.MAX_CORRECTION + 1 } =
      some "valid" := by
  have hb : ¬ cfg.MAX_CORRECTION ≤ s.correction_attemps := not_le.mpr ha
  refine ⟨fun o => corrector_short_circuit cfg o s cur hb hres hftc,
    fun o₁ o₂ => by
      rw [corrector_short_circuit cfg o₁ s cur hb hres hftc,
        corrector_short_circuit cfg o₂ s cur hb hres hftc],
    by omega, ?_⟩
  unfold should_continue
  rw [if_pos (by simp)]

/-- C6 witness: all criteria pass yet the verdict was `invalid` (80% is not
above 99%), so the corrector runs, finds nothing to fix, and short-circuits
with the sentinel counter 4. -/
theorem C6_witness :
    corrector graphConsts idOracle sAllPass = some (some mEx, graphConsts.MAX_CORRECTION + 1) ∧
    should_continue graphConsts
      { sAllPass with correction_attemps := graphConsts.MAX_CORRECTION + 1 } = some "valid" := by
  have h := C6_empty_correction_short_circuit graphConsts sAllPass mEx rfl (by decide) (by decide)
  exact ⟨h.1 idOracle, h.2.2.2⟩

/-- C7: the spec claims the attempt counter increases by exactly 0 on a
short-circuit skip.  On the code, a short-circuit from attempt counter 0
jumps to `MAX_CORRECTION + 1 = 4`, an increase of 4. -/
theorem C7_counterexample :
    sAllPass.correction_attemps = 0 ∧
    fields_to_correct graphConsts sAllPass.criteria = [] ∧
    corrector graphConsts idOracle sAllPass = some (some mEx, 4) ∧
    ¬ (4 : Int) = sAllPass.correction_attemps + 0 := by
  refine ⟨rfl, by decide, ?_, by decide⟩
  exact corrector_short_circuit graphConsts idOracle sAllPass mEx (by decide) rfl (by decide)

/-- C7 (amended): the attempt counter never decreases across a corrector
call; it increases by exactly 1 on a real correction cycle; on an
empty-fields short-circuit it is set to `MAX_CORRECTION + 1` (a strict
increase whenever the counter was below the budget); on the
budget-exhausted no-op branch it is returned unchanged. -/
theorem C7_attempt_monotonic (cfg : Consts) (o : String → Match → Match)
    (s : GraphState) (r : Option Match) (a' : Int)
    (h : corrector cfg o s = some (r, a')) :
    s.correction_attemps ≤ a' ∧
    (cfg.MAX_CORRECTION ≤ s.correction_attemps → a' = s.correction_attemps) ∧
    (s.correction_attemps < cfg.MAX_CORRECTION →
      (fields_to_correct cfg s.criteria ≠ [] → a' = s.correction_attemps + 1) ∧
      (fields_to_correct cfg s.criteria = [] →
        a' = cfg.MAX_CORRECTION + 1 ∧ s.correction_attemps < a')) := by
  by_cases hb : cfg.MAX_CORRECTION ≤ s.correction_attemps
  · rw [corrector_budget_exhausted cfg o s hb] at h
    simp only [Option.some.injEq, Prod.mk.injEq] at h
    obtain ⟨-, rfl⟩ := h
    exact ⟨le_refl _, fun _ => rfl, fun hlt => absurd hlt (not_lt.mpr hb)⟩
  · cases hres : s.llm_text_extraction_result with
    | none => rw [corrector_crash cfg o s hb hres] at h; exact Option.noConfusion h
    | some cur =>
        by_cases hftc : fields_to_correct cfg s.criteria = []
        · rw [corrector_short_circuit cfg o s cur hb hres hftc] at h
          simp only [Option.some.injEq, Prod.mk.injEq] at h
          obtain ⟨-, rfl⟩ := h
          refine ⟨by omega, fun hge => absurd hge hb, fun _ => ⟨fun hne => absurd hftc hne, fun _ => ⟨rfl, by omega⟩⟩⟩
        · rw [corrector_real cfg o s cur hb hres hftc] at h
          simp only [Option.some.injEq, Prod.mk.injEq] at h
          obtain ⟨-, rfl⟩ := h
          exact ⟨by omega, fun hge => absurd hge hb,
            fun _ => ⟨fun _ => rfl, fun heq => absurd heq hftc⟩⟩

/-- C7 witness: on the budget-exhausted no-op branch (counter 5 ≥ 3) the
counter is returned unchanged, hence non-decreasing. -/
theorem C7_attempt_monotonic_witness :
    sBudget.correction_attemps ≤ 5 ∧
    (graphConsts.MAX_CORRECTION ≤ sBudget.correction_attemps → (5 : Int) = sBudget.correction_attemps) := by
  have h := C7_attempt_monotonic graphConsts idOracle sBudget (some mEx) 5
    (corrector_budget_exhausted graphConsts idOracle sBudget (by decide))
  exact ⟨h.1, h.2.1⟩

/-- C8: in the compiled graph, the successor of `corrector` is
`criteria_checker` for every state (the edge is unconditional, so even a
no-op short-circuit re-enters scoring), and the only step into END is the
conditional edge out of `criteria_checker` taken when `should_continue`
returns `valid` — the Convergence Policy is the sole authority for
termination, and no correction reaches END without an intervening
re-score. -/
theorem C8_correction_reenters_scoring (cfg : Consts) (state : GraphState) :
    graph_step cfg state Node.corrector = some Node.criteria_checker ∧
    ∀ n, graph_step cfg state n = some Node.END →
      n = Node.criteria_checker ∧ should_continue cfg state = some "valid" := by
  refine ⟨rfl, ?_⟩
  intro n h
  cases n with
  | criteria_checker =>
      refine ⟨rfl, ?_⟩
      simp only [graph_step] at h
      cases hsc : should_continue cfg state with
      | none =>
          try rw [hsc] at h
          exact Option.noConfusion h
      | some v =>
          try rw [hsc] at h
          dsimp only at h
          unfold conditional_route at h
          split_ifs at h with h1 h2
          all_goals first
            | rw [h1]
            | exact absurd (Option.some.inj h) (by decide)
  | START => exact Node.noConfusion (Option.some.inj h)
  | image_preprocessing => exact Node.noConfusion (Option.some.inj h)
  | format_conversion => exact Node.noConfusion (Option.some.inj h)
  | ocr_text_extraction => exact Node.noConfusion (Option.some.inj h)
  | llm_text_extraction => exact Node.noConfusion (Option.some.inj h)
  | corrector => exact Node.noConfusion (Option.some.inj h)
  | END => exact Option.noConfusion h

/-- C8 witness: at the budget (counter 3) the checker node routes to END,
and the theorem recovers that the verdict was `valid`. -/
theorem C8_witness :
    Node.criteria_checker = Node.criteria_checker ∧
    should_continue graphConsts sAtBudget = some "valid" :=
  (C8_correction_reenters_scoring graphConsts sAtBudget).2 Node.criteria_checker (by decide)

/-- C9: the spec claims a failed item never aborts its siblings and the
batch still yields one record (or failure marker) per remaining input.
`batch_run_graph` has no per-item error confinement: `pool.imap` re-raises
the failing item's exception while the result list is being collected, so
the batch aborts — here item 2 of 3 fails, the siblings succeed, and the
batch produces an error, not a list of records. -/
theorem C9_counterexample :
    runGraphFail "a.png" = Except.ok 1 ∧
    runGraphFail "c.png" = Except.ok 1 ∧
    runGraphFail "b.png" = Except.error "ItemFailure" ∧
    batch_run_graph runGraphFail ["a.png", "b.png", "c.png"] = Except.error "ItemFailure" := by
  exact ⟨rfl, rfl, rfl, rfl⟩

/-- C9 (amended): when every item succeeds the batch yields exactly one
record per input, in input order; but a failing item aborts the batch: the
first exception propagates out of `batch_run_graph` and no result list is
produced for the sibling items. -/
theorem C9_amended_batch {ε α : Type} (run_graph_fn : String → Except ε α)
    (paths : List String) :
    (∀ records, batch_run_graph run_graph_fn paths = Except.ok records →
      List.Forall₂ (fun p a => run_graph_fn p = Except.ok a) paths records) ∧
    (∀ e, batch_run_graph run_graph_fn paths = Except.error e →
      ∃ p, p ∈ paths ∧ run_graph_fn p = Except.error e) := by
  induction paths with
  | nil =>
      constructor
      · intro records h
        simp only [batch_run_graph, Except.ok.injEq] at h
        rw [← h]
        exact List.Forall₂.nil
      · intro e h
        simp only [batch_run_graph] at h
        exact Except.noConfusion h
  | cons p ps ih =>
      constructor
      · intro records h
        cases hp : run_graph_fn p with
        | error e =>
            simp only [batch_run_graph, hp] at h
            exact Except.noConfusion h
        | ok a =>
            cases hb : batch_run_graph run_graph_fn ps with
            | error e =>
                simp only [batch_run_graph, hp, hb] at h
                exact Except.noConfusion h
            | ok as =>
                simp only [batch_run_graph, hp, hb, Except.ok.injEq] at h
                rw [← h]
                exact List.Forall₂.cons hp (ih.1 as hb)
      · intro e h
        cases hp : run_graph_fn p with
        | error e' =>
            simp only [batch_run_graph, hp, Except.error.injEq] at h
            exact ⟨p, List.mem_cons_self p ps, by rw [hp, h]⟩
        | ok a =>
            cases hb : batch_run_graph run_graph_fn ps with
            | error e' =>
                simp only [batch_run_graph, hp, hb, Except.error.injEq] at h
                obtain ⟨q, hq, hrq⟩ := ih.2 e' hb
                exact ⟨q, List.mem_cons_of_mem p hq, by rw [hrq, h]⟩
            | ok as =>
                simp only [batch_run_graph, hp, hb] at h
                exact Except.noConfusion h

/-- C9 witness: a two-item all-success batch yields one record per input in
input order. -/
theorem C9_witness :
    List.Forall₂ (fun p a => runAllOk p = Except.ok a) ["a.png", "b.png"] [1, 1] :=
  (C9_amended_batch runAllOk ["a.png", "b.png"]).1 [1, 1] rfl

lemma should_continue_budget (cfg : Consts) (s : GraphState)
    (h : cfg.MAX_CORRECTION ≤ s.correction_attemps) :
    should_continue cfg s = some "valid" := by
  unfold should_continue
  rw [if_pos h]


lemma scoringLoop_step_valid (cfg : Consts) (checker : Nat → Match → Criteria)
    (corrLLM : Nat → String → Match → Match) (fuel k : Nat)
    (s : GraphState) (reals : Nat) (m : Match)
    (hres : s.llm_text_extraction_result = some m)
    (hsc : should_continue cfg
      { s with
        llm_text_extraction_result := some m
        criteria := some (checker k m) } = some "valid") :
    scoringLoop cfg checker corrLLM (fuel + 1) k s reals =
      LoopResult.done
        { s with
          llm_text_extraction_result := some m
          criteria := some (checker k m) } reals := by
  simp only [scoringLoop, hres]
  rw [if_pos hsc]

lemma scoringLoop_step_invalid (cfg : Consts) (checker : Nat → Match → Criteria)
    (corrLLM : Nat → String → Match → Match) (fuel k : Nat)
    (s : GraphState) (reals : Nat) (m : Match) (r' : Option Match) (a' : Int)
    (hres : s.llm_text_extraction_result = some m)
    (hsc : should_continue cfg
      { s with
        llm_text_extraction_result := some m
        criteria := some (checker k m) } = some "invalid")
    (hcorr : corrector cfg (corrLLM k)
      { s with
        llm_text_extraction_result := some m
        criteria := some (checker k m) } = some (r', a')) :
    scoringLoop cfg checker corrLLM (fuel + 1) k s reals =
      scoringLoop cfg checker corrLLM fuel (k + 1)
        { s with
          criteria := some (checker k m)
          llm_text_extraction_result := r'
          correction_attemps := a' }
        (if (fields_to_correct cfg (some (checker k m))).isEmpty then reals
         else reals + 1) := by
  simp only [scoringLoop, hres]
  rw [if_neg (by rw [hsc]; decide), if_pos hsc, hcorr]

lemma scoringLoop_reaches_done (cfg : Consts) (checker : Nat → Match → Criteria)
    (corrLLM : Nat → String → Match → Match) :
    ∀ (fuel k : Nat) (s : GraphState) (reals : Nat) (m : Match),
      s.llm_text_extraction_result = some m →
      (cfg.MAX_CORRECTION - s.correction_attemps).toNat + 1 ≤ fuel →
      ∃ sfin r, scoringLoop cfg checker corrLLM fuel k s reals = LoopResult.done sfin r ∧
        r ≤ reals + (cfg.MAX_CORRECTION - s.correction_attemps).toNat := by
  intro fuel
  induction fuel with
  | zero =>
      intro k s reals m _ hfuel
      exact absurd hfuel (by omega)
  | succ fuel ih =>
      intro k s reals m hres hfuel
      by_cases hb : cfg.MAX_CORRECTION ≤ s.correction_attemps
      · rw [scoringLoop_step_valid cfg checker corrLLM fuel k s reals m hres
          (should_continue_budget cfg _ hb)]
        exact ⟨_, reals, rfl, by omega⟩
      · have hopen := should_continue_open cfg
          { s with
            llm_text_extraction_result := some m
            criteria := some (checker k m) } (checker k m) hb rfl
        by_cases hp : percentage_met cfg (checker k m) > cfg.CRITERIA_PERCENTAGE
        · rw [scoringLoop_step_valid cfg checker corrLLM fuel k s reals m hres
            (by rw [hopen, if_pos hp])]
          exact ⟨_, reals, rfl, by omega⟩
        · have hsc : should_continue cfg
              { s with
                llm_text_extraction_result := some m
                criteria := some (checker k m) } = some "invalid" := by
            rw [hopen, if_neg hp]
          by_cases hftc : fields_to_correct cfg (some (checker k m)) = []
          · have hcorr := corrector_short_circuit cfg (corrLLM k)
              { s with
                llm_text_extraction_result := some m
                criteria := some (checker k m) } m hb rfl hftc
            rw [scoringLoop_step_invalid cfg checker corrLLM fuel k s reals m
              (some m) (cfg.MAX_CORRECTION + 1) hres hsc hcorr]
            have hempty : (fields_to_correct cfg (some (checker k m))).isEmpty = true := by
              rw [hftc]; rfl
            rw [if_pos hempty]
            obtain ⟨sfin, r, heq, hr⟩ := ih (k + 1)
              { s with
                criteria := some (checker k m)
                llm_text_extraction_result := some m
                correction_attemps := cfg.MAX_CORRECTION + 1 } reals m rfl
              (by show (cfg.MAX_CORRECTION - (cfg.MAX_CORRECTION + 1)).toNat + 1 ≤ fuel
                  omega)
            refine ⟨sfin, r, heq, ?_⟩
            have hr2 : r ≤ reals +
                (cfg.MAX_CORRECTION - (cfg.MAX_CORRECTION + 1)).toNat := hr
            omega
          · have hcorr := corrector_real cfg (corrLLM k)
              { s with
                llm_text_extraction_result := some m
                criteria := some (checker k m) } m hb rfl hftc
            rw [scoringLoop_step_invalid cfg checker corrLLM fuel k s reals m
              (some ((fields_to_correct cfg (some (checker k m))).foldl
                (fun acc f => setField acc f ((corrLLM k)
                  (correctionInstructions cfg (some (checker k m))) m)) m))
              (s.correction_attemps + 1) hres hsc hcorr]
            have hnonempty : (fields_to_correct cfg (some (checker k m))).isEmpty = false := by
              cases hft : fields_to_correct cfg (some (checker k m)) with
              | nil => exact absurd hft hftc
              | cons x xs => rfl
            rw [if_neg (by rw [hnonempty]; decide)]
            obtain ⟨sfin, r, heq, hr⟩ := ih (k + 1)
              { s with
                criteria := some (checker k m)
                llm_text_extraction_result := some ((fields_to_correct cfg
                  (some (checker k m))).foldl (fun acc f => setField acc f ((corrLLM k)
                    (correctionInstructions cfg (some (checker k m))) m)) m)
                correction_attemps := s.correction_attemps + 1 } (reals + 1) _ rfl
              (by show (cfg.MAX_CORRECTION - (s.correction_attemps + 1)).toNat + 1 ≤ fuel
                  omega)
            refine ⟨sfin, r, heq, ?_⟩
            have hr2 : r ≤ (reals + 1) +
                (cfg.MAX_CORRECTION - (s.correction_attemps + 1)).toNat := hr
            omega

/-- C4: from a fresh run (attempt counter 0), the scoring/correction cycle
of the compiled graph reaches END within `MAX_CORRECTION + 1` scoring
iterations for every pair of backend oracles, executing at most
`MAX_CORRECTION` real correction cycles — the budget check of
`should_continue` together with the strictly increasing attempt counter
forces the `valid` verdict at the latest when the counter reaches the
budget, so no run can loop indefinitely. -/
theorem C4_bounded_termination (cfg : Consts) (checker : Nat → Match → Criteria)
    (corrLLM : Nat → String → Match → Match) (s : GraphState) (m : Match)
    (hres : s.llm_text_extraction_result = some m)
    (h0 : s.correction_attemps = 0) :
    (scoringLoop cfg checker corrLLM (cfg.MAX_CORRECTION.toNat + 1) 0 s 0).isDone = true ∧
    (scoringLoop cfg checker corrLLM (cfg.MAX_CORRECTION.toNat + 1) 0 s 0).realCorrections ≤
      cfg.MAX_CORRECTION.toNat := by
  obtain ⟨sfin, r, heq, hr⟩ := scoringLoop_reaches_done cfg checker corrLLM
    (cfg.MAX_CORRECTION.toNat + 1) 0 s 0 m hres (by rw [h0]; omega)
  rw [heq]
  refine ⟨rfl, ?_⟩
  simp only [LoopResult.realCorrections]
  rw [h0] at hr
  omega

/-- C4 witness: constant failing scores {10,10,0,0} and an identity
correction backend — the run terminates within the budget. -/
theorem C4_witness :
    (scoringLoop graphConsts (constChecker critC1) idCorrLLM
      (graphConsts.MAX_CORRECTION.toNat + 1) 0 loopStart 0).isDone = true ∧
    (scoringLoop graphConsts (constChecker critC1) idCorrLLM
      (graphConsts.MAX_CORRECTION.toNat + 1) 0 loopStart 0).realCorrections ≤
      graphConsts.MAX_CORRECTION.toNat :=
  C4_bounded_termination graphConsts (constChecker critC1) idCorrLLM loopStart mEx rfl rfl

/-- C2 (amended): with the constants hard-coded in graph.py (threshold 7,
`CRITERIA_PERCENTAGE = 99`; the `Configuration.criteria_met_perc` default
of 80 is not read by the graph), scores {10,10,8,9} all meet the threshold
yet give `percentage_met` = 80% (the `reasons` entry inflates the
denominator), `80 > 99` fails, so the verdict below the budget is
`invalid` and the run enters the corrector; the corrector finds no failing
criterion, short-circuits without a real correction, and the run then
terminates with the sentinel counter `MAX_CORRECTION + 1` after zero real
correction cycles. -/
theorem C2_amended_convergence (a : Int) (h : a < graphConsts.MAX_CORRECTION) :
    should_continue graphConsts (sC2 a) = some "invalid" ∧
    percentage_met graphConsts critC2 = 80 ∧
    defaultConfiguration.criteria_met_perc = 80 ∧
    graphConsts.CRITERIA_PERCENTAGE = 99 ∧
    (scoringLoop graphConsts (constChecker critC2) idCorrLLM 2 0 loopStart 0).isDone
      = true ∧
    (scoringLoop graphConsts (constChecker critC2) idCorrLLM 2 0 loopStart 0).realCorrections
      = 0 ∧
    (scoringLoop graphConsts (constChecker critC2) idCorrLLM 2 0 loopStart 0).finalAttempts
      = graphConsts.MAX_CORRECTION + 1 := by
  refine ⟨should_continue_sC2 a h, percentage_met_critC2, rfl, rfl, ?_⟩
  have hsc1 : should_continue graphConsts
      { loopStart with
        llm_text_extraction_result := some mEx
        criteria := some (constChecker critC2 0 mEx) } = some "invalid" := by
    rw [should_continue_open graphConsts _ critC2 (by decide) rfl,
      if_neg (by rw [percentage_met_critC2]; norm_num [graphConsts, CRITERIA_PERCENTAGE])]
  have hcorr1 : corrector graphConsts (idCorrLLM 0)
      { loopStart with
        llm_text_extraction_result := some mEx
        criteria := some (constChecker critC2 0 mEx) } =
      some (some mEx, graphConsts.MAX_CORRECTION + 1) :=
    corrector_short_circuit graphConsts (idCorrLLM 0) _ mEx (by decide) rfl (by decide)
  rw [show (2 : Nat) = 1 + 1 from rfl,
    scoringLoop_step_invalid graphConsts (constChecker critC2) idCorrLLM 1 0 loopStart 0
      mEx (some mEx) (graphConsts.MAX_CORRECTION + 1) rfl hsc1 hcorr1,
    if_pos (by decide),
    show (1 : Nat) = 0 + 1 from rfl,
    scoringLoop_step_valid graphConsts (constChecker critC2) idCorrLLM 0 1
      { loopStart with
        criteria := some (constChecker critC2 0 mEx)
        llm_text_extraction_result := some mEx
        correction_attemps := graphConsts.MAX_CORRECTION + 1 } 0 mEx rfl
      (should_continue_budget graphConsts _ (by decide))]
  exact ⟨rfl, rfl, rfl⟩

/-- C2 witness: the amended convergence facts at attempt counter 0. -/
theorem C2_amended_witness :
    should_continue graphConsts (sC2 0) = some "invalid" ∧
    percentage_met graphConsts critC2 = 80 ∧
    defaultConfiguration.criteria_met_perc = 80 ∧
    graphConsts.CRITERIA_PERCENTAGE = 99 ∧
    (scoringLoop graphConsts (constChecker critC2) idCorrLLM 2 0 loopStart 0).isDone
      = true ∧
    (scoringLoop graphConsts (constChecker critC2) idCorrLLM 2 0 loopStart 0).realCorrections
      = 0 ∧
    (scoringLoop graphConsts (constChecker critC2) idCorrLLM 2 0 loopStart 0).finalAttempts
      = graphConsts.MAX_CORRECTION + 1 :=
  C2_amended_convergence 0 (by decide)

end StructuredOCR
